import Mathlib

/-!
Verification of the libDaisy UI runtime (event queue, button/pot monitors,
page-stack dispatcher, menu engine) against its natural-language specification.

The C++ sources are shallowly embedded:
machine integers are modelled as Nat/Int with explicit wrapping where the
C++ type is narrower than the mathematical value (int16_t, uint8_t, uint32_t);
float values (pot positions, dead bands) are modelled as exact rationals;
the per-component mutable state becomes explicit state records, and each
member function becomes a pure state-transition function that also returns
the list of events it posts to the event queue, in posting order.
-/

namespace DaisyUi

/-- Wrap an integer to the value range of the C type int16_t
(two's complement, as on the ARM targets of this library). -/
def i16 (n : Int) : Int := (n + 32768) % 65536 - 32768

/-- Wrap a natural number to the value range of the C type uint32_t. -/
def u32 (n : Nat) : Nat := n % 4294967296

/-- Subtraction of uint32_t values (modular, as in C). -/
def u32sub (a b : Nat) : Nat := (u32 a + 4294967296 - u32 b) % 4294967296

/-- One entry of the UiEventQueue (UiEventQueue.h, struct Event).
The tagged union is modelled as an inductive type; each variant carries the
payload fields of the corresponding branch of the C++ union.  Pot positions
(C++ float) are modelled as rationals. -/
inductive Event
  | invalid
  | buttonPressed (id : Nat) (numSuccessivePresses : Nat)
  | buttonReleased (id : Nat)
  | encoderTurned (id : Nat) (increments : Int) (stepsPerRev : Nat)
  | encoderActivityChanged (id : Nat) (isActive : Bool)
  | potMoved (id : Nat) (newPosition : ℚ)
  | potActivityChanged (id : Nat) (isActive : Bool)
deriving DecidableEq, Repr

/-- UiEventQueue.kInvalidButtonId (= UINT16_MAX). -/
def kInvalidButtonId : Nat := 65535

/-! ## Event queue (UiEventQueue.h on top of util_ringbuffer.h)

UiEventQueue stores its events in a RingBuffer of fixed capacity and pushes
every event with RingBuffer.Overwrite inside a critical section; reading is
getAndRemoveNextEvent, which returns an INVALID event when the queue is
empty.  The file util_ringbuffer.h itself is not part of the sources, so the
buffer is modelled from the spec.  The queue contents are a list with the
OLDEST event at the head. -/

/-- Modelled from the spec: RingBuffer.Overwrite (util_ringbuffer.h is missing
from the sources; spec sections 3 and 4.1: capacity fixed at construction,
push never fails observably, on overflow the oldest unread event is dropped
to admit the new one). -/
def overwrite (cap : Nat) (q : List Event) (e : Event) : List Event :=
  if q.length < cap then q ++ [e] else q.tail ++ [e]

/-- UiEventQueue.getAndRemoveNextEvent: returns the INVALID event when the
queue is empty, otherwise removes and returns the oldest event. -/
def getAndRemoveNextEvent (q : List Event) : Event × List Event :=
  match q with
  | [] => (Event.invalid, [])
  | e :: rest => (e, rest)

/-- UiEventQueue.isQueueEmpty. -/
def isQueueEmpty (q : List Event) : Bool := q.isEmpty

/-- Push a whole list of events (oldest first) without intervening pops. -/
def pushAll (cap : Nat) (q : List Event) (evs : List Event) : List Event :=
  evs.foldl (overwrite cap) q

/-- Pop the queue until it is empty, collecting the events in pop order.
Each step is one getAndRemoveNextEvent on a non-empty queue. -/
def popAll : List Event → List Event
  | [] => []
  | e :: rest => e :: popAll rest

lemma popAll_eq (q : List Event) : popAll q = q := by
  induction q with
  | nil => rfl
  | cons e rest ih => simp [popAll, ih]

lemma overwrite_length (cap : Nat) (hcap : 1 ≤ cap) (q : List Event)
    (e : Event) (hq : q.length ≤ cap) :
    (overwrite cap q e).length = min (q.length + 1) cap := by
  unfold overwrite
  by_cases h : q.length < cap
  · simp [h]; omega
  · have hlen : q.length = cap := by omega
    have hne : q ≠ [] := by
      intro hnil; rw [hnil] at hlen; simp at hlen; omega
    simp [h, List.length_tail]
    omega

lemma pushAll_eq_drop (cap : Nat) (hcap : 1 ≤ cap) :
    ∀ (evs q : List Event), q.length ≤ cap →
      pushAll cap q evs = (q ++ evs).drop (q.length + evs.length - cap) := by
  intro evs
  induction evs with
  | nil =>
    intro q hq
    have h0 : q.length - cap = 0 := by omega
    simp [pushAll, h0]
  | cons e rest ih =>
    intro q hq
    have hstep : pushAll cap q (e :: rest) = pushAll cap (overwrite cap q e) rest := by
      simp [pushAll]
    rw [hstep]
    by_cases h : q.length < cap
    · have hpush : overwrite cap q e = q ++ [e] := by simp [overwrite, h]
      have hlen : (q ++ [e]).length ≤ cap := by simp; omega
      rw [hpush, ih (q ++ [e]) hlen]
      simp
      have harith : q.length + 1 + rest.length - cap
          = q.length + (rest.length + 1) - cap := by omega
      rw [harith]
    · have hlen : q.length = cap := by omega
      obtain ⟨h0, t, rfl⟩ : ∃ h0 t, q = h0 :: t := by
        cases q with
        | nil => simp at hlen; omega
        | cons a b => exact ⟨a, b, rfl⟩
      have hlen' : t.length + 1 = cap := by simpa using hlen
      have hpush : overwrite cap (h0 :: t) e = t ++ [e] := by
        simp [overwrite]
        omega
      have hlen2 : (t ++ [e]).length ≤ cap := by
        simp
        omega
      rw [hpush, ih (t ++ [e]) hlen2]
      simp
      have harith : t.length + 1 + rest.length - cap = rest.length := by omega
      have harith2 : t.length + 1 + (rest.length + 1) - cap = rest.length + 1 := by
        omega
      rw [harith, harith2]
      simp [List.drop_succ_cons]

/-- Claim C3: pushing capacity + k events into the (initially empty) event
queue without intervening pops and then popping until empty yields exactly
the last capacity events pushed, in their original FIFO order (the oldest k
are silently discarded); moreover the resulting queue holds
min (number pushed) capacity events, and a push always admits the new event
(it never fails observably).  Stated for every positive capacity cap0 + 1
(the source instantiates the ring buffer with capacity 256) and every event
list evs: with evs.length = capacity + k the drop amount below is exactly k. -/
theorem eventQueue_fifo_drop_oldest (cap0 : Nat) (evs : List Event) :
    popAll (pushAll (cap0 + 1) [] evs) = evs.drop (evs.length - (cap0 + 1)) ∧
    (pushAll (cap0 + 1) [] evs).length = min evs.length (cap0 + 1) ∧
    ∀ (q : List Event) (e : Event),
      (overwrite (cap0 + 1) q e).getLast? = some e := by
  have hmain := pushAll_eq_drop (cap0 + 1) (by omega) evs [] (by simp)
  refine ⟨?_, ?_, ?_⟩
  · rw [hmain, popAll_eq]
    simp
  · rw [hmain]
    simp
    omega
  · intro q e
    unfold overwrite
    by_cases h : q.length < cap0 + 1 <;> simp [h]

/-! ## Button monitor (ButtonMonitor.h)

Per-button state of ButtonMonitor: buttonStates_ is an int16_t integrator
( less-or-equal -timeout means released, greater-or-equal timeout means
pressed), lastClickTimes_ is a uint32_t timestamp, numSuccessiveClicks_ is a
uint8_t click counter.  Process() is called once per tick; the claims speak
in ticks, so runs advance the system time by 1 per call
(timeInMsSinceLastCall = 1). -/

structure ButtonState where
  buttonState : Int
  lastClickTime : Nat
  numSuccessiveClicks : Nat
deriving DecidableEq, Repr

/-- ButtonMonitor.Init for one button: buttonStates_[i] = -timeout_
(int16_t assignment, hence wrapped), lastClickTimes_[i] = 0,
numSuccessiveClicks_[i] = 0. -/
def buttonInit (timeout : Nat) : ButtonState :=
  { buttonState := i16 (-(timeout : Int)), lastClickTime := 0, numSuccessiveClicks := 0 }

/-- ButtonMonitor.PostButtonDownEvent: updates the double-click counter
(uint8_t, hence modulo 256) depending on the uint32_t time difference to the
previous rising edge, stores the click time and returns the BUTTON_PRESSED
event that is pushed to the queue. -/
def postButtonDownEvent (doubleClickTimeout id currentSystemTime : Nat)
    (s : ButtonState) : ButtonState × Event :=
  let timeDiff := u32sub currentSystemTime s.lastClickTime
  let clicks :=
    if timeDiff ≤ doubleClickTimeout then (s.numSuccessiveClicks + 1) % 256 else 1
  ({ s with lastClickTime := u32 currentSystemTime, numSuccessiveClicks := clicks },
   Event.buttonPressed id clicks)

/-- ButtonMonitor.ProcessButton, translated branch for branch.  All writes to
buttonStates_[id] go through i16 (the member is int16_t).  The returned list
holds the events pushed to the queue during this call, in order. -/
def processButton (timeout doubleClickTimeout id : Nat) (s : ButtonState)
    (isPressed : Bool) (timeInMsSinceLastCall currentSystemTime : Nat) :
    ButtonState × List Event :=
  if s.buttonState < 0 then
    if isPressed = false then
      if s.buttonState + 1 > -(timeout : Int) then
        let bs := i16 (s.buttonState - timeInMsSinceLastCall)
        let s' := { s with buttonState := bs }
        if bs + 1 ≤ -(timeout : Int) then (s', [Event.buttonReleased id])
        else (s', [])
      else (s, [])
    else
      let s' := { s with buttonState := 1 }
      if s'.buttonState - 1 ≥ (timeout : Int) then
        let (s'', e) := postButtonDownEvent doubleClickTimeout id currentSystemTime s'
        (s'', [e])
      else (s', [])
  else
    if isPressed = true then
      if s.buttonState - 1 < (timeout : Int) then
        let bs := i16 (s.buttonState + timeInMsSinceLastCall)
        let s' := { s with buttonState := bs }
        if bs - 1 ≥ (timeout : Int) then
          let (s'', e) := postButtonDownEvent doubleClickTimeout id currentSystemTime s'
          (s'', [e])
        else (s', [])
      else (s, [])
    else
      let s' := { s with buttonState := -1 }
      if s'.buttonState + 1 ≤ -(timeout : Int) then (s', [Event.buttonReleased id])
      else (s', [])

/-- ButtonMonitor.IsButtonPressed for an in-range id: the debounced state. -/
def buttonStateIsPressed (timeout : Nat) (s : ButtonState) : Bool :=
  decide (s.buttonState ≥ (timeout : Int))

/-- Run the monitor on one button over a sequence of raw states, one tick
(1 ms) per entry, the first tick happening at time startTime. -/
def runButton (timeout doubleClickTimeout id : Nat) :
    ButtonState → Nat → List Bool → ButtonState × List Event
  | s, _, [] => (s, [])
  | s, now, b :: rest =>
    let (s', evs) := processButton timeout doubleClickTimeout id s b 1 now
    let (s'', evs') := runButton timeout doubleClickTimeout id s' (now + 1) rest
    (s'', evs ++ evs')

/-- Claim C4 (code evaluated at the failing input): with debounceTicks = 2,
the freshly initialized monitor emits a BUTTON_RELEASED event after a single
tick with the raw state de-asserted.  The claim (and the Init comment,
which says the button starts in the released state) requires continuous
de-assertion for at least 2 ticks before a release is reported; Init leaves
the integrator at -timeout, which under the shifted thresholds of
ProcessButton is still one step short of the released plateau (-timeout - 1),
so the very first de-asserted tick crosses the threshold and posts a
spurious release. -/
theorem buttonMonitor_spurious_release_after_init :
    (runButton 2 10 0 (buttonInit 2) 1 [false]).2 = [Event.buttonReleased 0] ∧
    (runButton 2 10 0 (buttonInit 2) 1 [false]).1.buttonState = -3 := by
  decide

/-- State of one button after n rising edges at times 1, 2, ..., n, each
within the double-click window of 10 ticks of its predecessor. -/
def clickRun (n : Nat) : ButtonState :=
  (List.range n).foldl (fun s k => (postButtonDownEvent 10 0 (k + 1) s).1) (buttonInit 2)

/-- The click count carried by a BUTTON_PRESSED event (0 for other events). -/
def clickCountOf : Event → Nat
  | Event.buttonPressed _ n => n
  | _ => 0

set_option maxRecDepth 4000 in
/-- Claim C5, counterexample: numSuccessiveClicks_ is a uint8_t, so on the
256th successive press inside the double-click window the counter wraps from
255 to 0: the emitted click count is 0, not one greater than the previous
press count of 255. -/
theorem clickCount_wraps_at_256 :
    (clickRun 255).numSuccessiveClicks = 255 ∧
    clickCountOf (postButtonDownEvent 10 0 256 (clickRun 255)).2 = 0 ∧
    clickCountOf (postButtonDownEvent 10 0 256 (clickRun 255)).2 ≠ 255 + 1 := by
  refine ⟨by decide, by decide, by decide⟩

/-- Claim C5 as amended: on a rising edge within the double-click window the
emitted click count is one greater than the stored count modulo 256 (hence
exactly one greater whenever the stored count is below 255, which is the
case for any run of fewer than 256 successive presses), and on a rising edge
later than the window the count is reset to exactly 1.  The stored count is
exactly the count carried by the previous BUTTON_PRESSED event of this
button, so this is the per-edge content of the claim. -/
theorem clickCount_step (doubleClickTimeout id now : Nat) (s : ButtonState) :
    (u32sub now s.lastClickTime ≤ doubleClickTimeout →
      clickCountOf (postButtonDownEvent doubleClickTimeout id now s).2
        = (s.numSuccessiveClicks + 1) % 256 ∧
      (s.numSuccessiveClicks < 255 →
        clickCountOf (postButtonDownEvent doubleClickTimeout id now s).2
          = s.numSuccessiveClicks + 1)) ∧
    (doubleClickTimeout < u32sub now s.lastClickTime →
      clickCountOf (postButtonDownEvent doubleClickTimeout id now s).2 = 1) := by
  constructor
  · intro hin
    constructor
    · simp [postButtonDownEvent, clickCountOf, hin]
    · intro hlt
      simp [postButtonDownEvent, clickCountOf, hin]
      omega
  · intro hout
    have hnot : ¬(u32sub now s.lastClickTime ≤ doubleClickTimeout) := by omega
    simp [postButtonDownEvent, clickCountOf, hnot]

/-- Witness for clickCount_step at a concrete input. -/
theorem clickCount_step_witness :
    clickCountOf (postButtonDownEvent 10 7 5 (buttonInit 2)).2 = 0 + 1 :=
  (clickCount_step 10 7 5 (buttonInit 2)).1 (by decide) |>.2 (by decide)

/-! ## Pot monitor (PotMonitor.h)

Per-pot state: last_value_ (float, modelled as a rational) and
timeout_counter_ (uint32_t).  Configuration: dead_band_, dead_band_idle_
(floats) and timeout_ (uint32_t, from the uint16_t init parameter).  A pot
counts as moving exactly when its timeout counter is below the timeout. -/

structure PotConfig where
  deadBand : ℚ
  deadBandIdle : ℚ
  timeout : Nat
deriving DecidableEq, Repr

structure PotState where
  lastValue : ℚ
  timeoutCounter : Nat
deriving DecidableEq, Repr

/-- The moving test of PotMonitor.isMoving applied to one pot state. -/
def potStateIsMoving (cfg : PotConfig) (s : PotState) : Bool :=
  decide (s.timeoutCounter < cfg.timeout)

/-- PotMonitor.processPot, translated branch for branch.  The moving-state
dead-band test in the source reads
(delta greater than dead_band_) or (delta less than dead_band__);
the identifier dead_band__ is not a declared member of the class (the
declared members are dead_band_ and dead_band_idle_), so the file does not
compile as written; the nearest declared member, one character away, is
dead_band_, and that reading (a dropped unary minus) is embedded here.
The idle-state branch uses the symmetric test with -dead_band_idle_ as in
the source.  The returned list holds the events pushed to the queue during
this call, in order. -/
def processPot (cfg : PotConfig) (id : Nat) (s : PotState) (value : ℚ)
    (timeDiff : Nat) : PotState × List Event :=
  if s.timeoutCounter < cfg.timeout then
    let delta := s.lastValue - value
    if delta > cfg.deadBand ∨ delta < cfg.deadBand then
      ({ lastValue := value, timeoutCounter := 0 }, [Event.potMoved id value])
    else
      let c := u32 (s.timeoutCounter + timeDiff)
      ({ s with timeoutCounter := c },
        if cfg.timeout ≤ c then [Event.potActivityChanged id false] else [])
  else
    let delta := s.lastValue - value
    if delta > cfg.deadBandIdle ∨ delta < -cfg.deadBandIdle then
      ({ lastValue := value, timeoutCounter := 0 },
        [Event.potActivityChanged id true, Event.potMoved id value])
    else (s, [])

/-- Claim C2 (code evaluated at the failing input): a pot in the moving
state whose backend value equals the last reported value (delta = 0, well
inside the moving dead-band of 1/4096) still gets a POT_MOVED event posted
and its idle-timeout counter reset, because the dead-band test of the
moving branch is not the symmetric test on the absolute difference that the
claim states: as written it compares the signed delta with dead_band__, an
undeclared identifier, and under the nearest compilable reading
(delta greater than dead_band_, or delta less than dead_band_) it holds for
every delta different from dead_band_ - including zero movement.  The claim
instead requires: no event and the idle-timeout counter incremented to 1. -/
theorem potMonitor_moving_deadband_asymmetric :
    processPot ⟨1/4096, 1/1024, 100⟩ 0 ⟨1/2, 0⟩ (1/2) 1
      = (⟨1/2, 0⟩, [Event.potMoved 0 (1/2)]) ∧
    ((1 : ℚ)/2 - 1/2 = 0) := by
  constructor
  · norm_num [processPot]
  · norm_num

/-- Claim C6, counterexample: with idle_timeout = 0 a pot that crosses the
idle dead-band fires POT_ACTIVITY_CHANGED(active) and POT_MOVED and has its
counter reset to 0, but it does NOT transition to moving: isMoving is
0 < 0 = false, so the pot is permanently idle.  The claim asserts the pot
transitions to moving on every idle dead-band crossing. -/
theorem potMonitor_idle_timeout_zero_never_moving :
    (processPot ⟨1/4096, 1/1024, 0⟩ 0 ⟨0, 0⟩ (1/2) 1).2
      = [Event.potActivityChanged 0 true, Event.potMoved 0 (1/2)] ∧
    potStateIsMoving ⟨1/4096, 1/1024, 0⟩ (processPot ⟨1/4096, 1/1024, 0⟩ 0 ⟨0, 0⟩ (1/2) 1).1
      = false := by
  constructor
  · norm_num [processPot]
  · norm_num [processPot, potStateIsMoving]

/-- Claim C6 as amended: for a pot in the idle state (timeout counter at or
above the timeout), as long as the backend value stays within the idle
dead-band of the last reported value, processPot posts no event at all (in
particular no POT_MOVED) and leaves the pot state unchanged; when the idle
dead-band is crossed, POT_ACTIVITY_CHANGED(id, active) is posted strictly
before POT_MOVED(id, value), the last reported value is updated to the new
value, and - provided the idle timeout is at least 1 - the pot transitions
to moving (with idle timeout 0 the pot stays idle forever, as the
counterexample shows). -/
theorem potMonitor_idle_deadband (cfg : PotConfig) (id : Nat) (s : PotState)
    (value : ℚ) (timeDiff : Nat) (hto : 1 ≤ cfg.timeout)
    (hidle : cfg.timeout ≤ s.timeoutCounter) :
    (|s.lastValue - value| ≤ cfg.deadBandIdle →
      processPot cfg id s value timeDiff = (s, [])) ∧
    (cfg.deadBandIdle < |s.lastValue - value| →
      (processPot cfg id s value timeDiff).2
        = [Event.potActivityChanged id true, Event.potMoved id value] ∧
      (processPot cfg id s value timeDiff).1.lastValue = value ∧
      potStateIsMoving cfg (processPot cfg id s value timeDiff).1 = true) := by
  have hnotmov : ¬(s.timeoutCounter < cfg.timeout) := by omega
  constructor
  · intro hin
    have h1 : ¬(s.lastValue - value > cfg.deadBandIdle ∨
        s.lastValue - value < -cfg.deadBandIdle) := by
      rw [abs_le] at hin
      push_neg
      constructor <;> linarith [hin.1, hin.2]
    simp [processPot, hnotmov, h1]
  · intro hout
    have h1 : s.lastValue - value > cfg.deadBandIdle ∨
        s.lastValue - value < -cfg.deadBandIdle := by
      rcases lt_or_le (s.lastValue - value) 0 with h | h
      · right
        rw [abs_of_neg h] at hout
        linarith
      · left
        rw [abs_of_nonneg h] at hout
        linarith
    simp [processPot, hnotmov, h1, potStateIsMoving]
    omega

/-- Witness for potMonitor_idle_deadband at a concrete input. -/
theorem potMonitor_idle_deadband_witness :
    processPot ⟨1/4096, 1/1024, 5⟩ 0 ⟨1/2, 7⟩ (1/2 + 1/2048) 1 = (⟨1/2, 7⟩, []) :=
  (potMonitor_idle_deadband ⟨1/4096, 1/1024, 5⟩ 0 ⟨1/2, 7⟩ (1/2 + 1/2048) 1
    (by norm_num) (by norm_num)).1 (by rw [abs_le]; constructor <;> norm_num)

/-! ## Pot monitor query methods (PotMonitor.h, isMoving / getCurrentPotValue)

The whole monitor holds one entry per pot in fixed arrays of size kNumPots;
the arrays are modelled as lists of that length, so the monitored pot count
equals the length of lastValues. -/

structure PotMonitorState where
  deadBand : ℚ
  deadBandIdle : ℚ
  timeout : Nat
  lastValues : List ℚ
  timeoutCounters : List Nat
deriving DecidableEq, Repr

/-- PotMonitor.getCurrentPotValue: returns -1.0 for a pot id at or beyond
kNumPots, otherwise the last value posted to the queue. -/
def getCurrentPotValue (m : PotMonitorState) (potId : Nat) : ℚ :=
  if m.lastValues.length ≤ potId then -1 else m.lastValues.getD potId 0

/-- PotMonitor.isMoving: false for a pot id at or beyond kNumPots, otherwise
the timeout-counter test. -/
def isMoving (m : PotMonitorState) (potId : Nat) : Bool :=
  if m.lastValues.length ≤ potId then false
  else decide (m.timeoutCounters.getD potId 0 < m.timeout)

/-- Claim C9: for every pot id at or beyond the configured pot count
(every such id is kNumPots + j for some j), getCurrentPotValue returns the
sentinel -1.0 (outside the documented 0..1 range) and isMoving returns
false.  Both queries are const member functions embedded as pure functions
of the monitor state, so neither modifies any monitor state. -/
theorem potMonitor_queries_out_of_range (m : PotMonitorState) (j : Nat) :
    getCurrentPotValue m (m.lastValues.length + j) = -1 ∧
    isMoving m (m.lastValues.length + j) = false := by
  constructor
  · simp [getCurrentPotValue]
  · simp [isMoving]

/-! ## UI dispatcher (UI.h / UI.cpp)

Pages are identified by natural numbers.  The page stack (Stack of UiPage
pointers, util_stack.h) is a list, bottom of the stack first; the per-page
parent_ pointer becomes a map from page id to the owning dispatcher id
(this dispatcher is id 0; the claims that need it quantify over pages not
owned by any dispatcher, i.e. parent = none).  The display list, redraw
bookkeeping and the ok/cancel/arrow role bindings are not touched by any
claim and are omitted; the onShow/onHide hooks of UiPage do not modify
dispatcher state.  Dispatching an event means invoking processEvent on it;
for the claims the dispatched events are collected in a list. -/

/-- UI.kMaxNumPages. -/
def kMaxNumPages : Nat := 32

structure UIState where
  isMuted : Bool
  queueEvents : Bool
  pages : List Nat
  parent : Nat → Option Nat
  eventQueue : List Event
  buttonStateBuffer : List Bool
  funcBttnId : Nat

/-- UI.init: not muted, queuing off, empty stack, function button unbound
(kInvalidButtonId), all button states cleared.  The queue starts empty. -/
def uiInit (numButtons : Nat) : UIState :=
  { isMuted := false, queueEvents := false, pages := [],
    parent := fun _ => none, eventQueue := [],
    buttonStateBuffer := List.replicate numButtons false,
    funcBttnId := kInvalidButtonId }

/-- UI.openPage: silently does nothing if the page already has a parent or
the stack is full; otherwise pushes the page on top, sets its parent to
this dispatcher and calls its onShow hook. -/
def openPage (u : UIState) (p : Nat) : UIState :=
  if (u.parent p).isSome then u
  else if u.pages.length = kMaxNumPages then u
  else { u with pages := u.pages ++ [p],
                parent := fun q => if q = p then some 0 else u.parent q }

/-- Index of the topmost occurrence of p on the stack (the source scans from
getNumElements() - 1 downwards).  None when p is not on the stack; in the
source that case runs the unsigned loop counter past the buffer (the
page_index less-than-zero guard below it is unreachable), which cannot
happen for a page whose parent is this dispatcher. -/
def topPageIndex (l : List Nat) (p : Nat) : Option Nat :=
  match l.reverse.findIdx? (fun q => q = p) with
  | none => none
  | some j => some (l.length - 1 - j)

/-- UI.closePage: silently does nothing if the page is not owned by this
dispatcher; otherwise finds the page on the stack and, when it is not the
topmost entry, shifts every entry above it down by one slot so that the
stack has no gap, then calls removePage (onHide hook, parent set to null).
The element count of the stack is never decremented in the source: no
popBack or remove call follows the shift, so the buffer keeps its old top
entry (now duplicated) and getNumElements() stays unchanged. -/
def closePage (u : UIState) (p : Nat) : UIState :=
  if u.parent p ≠ some 0 then u
  else
    match topPageIndex u.pages p with
    | none => u
    | some i =>
      let pages' :=
        if i + 1 < u.pages.length then
          u.pages.eraseIdx i ++ u.pages.getLast?.toList
        else u.pages
      { u with pages := pages',
               parent := fun q => if q = p then none else u.parent q }

/-- Claim C1 (code evaluated at the failing input): opening a page on an
empty dispatcher and immediately closing it does reset the parent reference
to null, but does NOT restore the stack: the page entry stays on the stack
because closePage never decrements the element count.  Closing a non-top
page likewise compacts but leaves the count unchanged, duplicating the top
entry (third conjunct: open 1, 2, 3, close 2 leaves the stack as 1, 3, 3). -/
theorem openPage_closePage_leaves_entry :
    (closePage (openPage (uiInit 0) 5) 5).pages = [5] ∧
    (closePage (openPage (uiInit 0) 5) 5).parent 5 = none ∧
    (closePage (openPage (openPage (openPage (uiInit 0) 1) 2) 3) 2).pages
      = [1, 3, 3] := by
  refine ⟨by decide, by decide, by decide⟩

/-- The event-draining loop of UI.process: pop every event and hand each
non-INVALID one to processEvent; returns the dispatched events in order. -/
def drainLoop : List Event → List Event
  | [] => []
  | e :: rest => if e = Event.invalid then drainLoop rest else e :: drainLoop rest

/-- The input-handling phase of UI.process: when not muted, drain the queue
and dispatch every non-INVALID event; when muted with queuing disabled,
drain the queue discarding everything; when muted with queuing enabled,
leave the queue alone.  Returns the new state and the list of events that
were dispatched to the page stack.  (The second phase of process(), display
redrawing, touches neither the queue nor the page stack.) -/
def uiProcessInput (u : UIState) : UIState × List Event :=
  if u.isMuted = false then
    ({ u with eventQueue := [] }, drainLoop u.eventQueue)
  else if u.queueEvents = false then
    ({ u with eventQueue := [] }, [])
  else (u, [])

lemma drainLoop_eq_filter (l : List Event) :
    drainLoop l = l.filter (fun e => decide (e ≠ Event.invalid)) := by
  induction l with
  | nil => rfl
  | cons e rest ih =>
    by_cases h : e = Event.invalid <;> simp [drainLoop, h, ih, List.filter]

/-- Claim C8: process() leaves the queue and page state as the mute flags
dictate.  Not muted: the queue is drained and exactly the non-INVALID
queued events (all of them, for any queue filled by the monitors, which
never push INVALID) are dispatched, in order.  Muted with queuing disabled:
the queue is drained and nothing is dispatched.  Muted with queuing
enabled: the queue is left completely unchanged and nothing is dispatched.
In every case the page stack is untouched by the input phase. -/
theorem uiProcess_mute_semantics (u : UIState) :
    (uiProcessInput u).1.pages = u.pages ∧
    (uiProcessInput u).1.eventQueue
      = (if u.isMuted = true ∧ u.queueEvents = true then u.eventQueue else []) ∧
    (uiProcessInput u).2
      = (if u.isMuted = true then []
         else u.eventQueue.filter (fun e => decide (e ≠ Event.invalid))) := by
  unfold uiProcessInput
  rcases hm : u.isMuted <;> rcases hq : u.queueEvents <;>
    simp [hm, hq, drainLoop_eq_filter]

/-- UI.isButtonDown: reads the caller-supplied button state buffer with no
range check; the read is well-defined exactly when the index is inside the
buffer, which is modelled by the partial lookup. -/
def isButtonDown (u : UIState) (buttonId : Nat) : Option Bool :=
  u.buttonStateBuffer.get? buttonId

/-- UI.isFuncButtonDown: the unchecked read at the configured function
button id. -/
def isFuncButtonDown (u : UIState) : Option Bool :=
  isButtonDown u u.funcBttnId

/-- ButtonMonitor state over all buttons, for the query contrast of claim
C10: buttonStates_ has one int16_t entry per monitored button, so the
monitored button count equals the length of buttonStates. -/
structure ButtonMonitorState where
  timeout : Nat
  doubleClickTimeout : Nat
  buttonStates : List Int
deriving DecidableEq, Repr

/-- ButtonMonitor.IsButtonPressed: false for an id at or beyond numButtons,
otherwise the debounced-state test. -/
def monitorIsButtonPressed (m : ButtonMonitorState) (buttonId : Nat) : Bool :=
  if m.buttonStates.length ≤ buttonId then false
  else decide (m.buttonStates.getD buttonId 0 ≥ (m.timeout : Int))

/-- Claim C10: UI.isButtonDown is well-defined exactly on ids below
num_buttons (the size of the caller-supplied buffer) - an out-of-range id
yields no value rather than false - and UI.isFuncButtonDown is well-defined
exactly when the configured function button id lies below num_buttons
(after init it is kInvalidButtonId = 65535, and setFunctionButtonId maps any
out-of-range id to kInvalidButtonId, so a valid id must have been
configured).  In contrast, the monitor query ButtonMonitor.IsButtonPressed
maps every out-of-range id (numButtons + j) to false. -/
theorem isButtonDown_needs_range (u : UIState) (buttonId j : Nat)
    (m : ButtonMonitorState) :
    ((isButtonDown u buttonId).isSome ↔ buttonId < u.buttonStateBuffer.length) ∧
    ((isFuncButtonDown u).isSome ↔ u.funcBttnId < u.buttonStateBuffer.length) ∧
    isButtonDown u (u.buttonStateBuffer.length + j) = none ∧
    monitorIsButtonPressed m (m.buttonStates.length + j) = false := by
  have key : ∀ (l : List Bool) (n : Nat), (l.get? n).isSome ↔ n < l.length := by
    intro l n
    constructor
    · intro h
      by_contra hn
      rw [List.get?_eq_none.2 (by omega)] at h
      simp at h
    · intro h
      rw [List.get?_eq_get h]
      simp
  refine ⟨?_, ?_, ?_, ?_⟩
  · exact key u.buttonStateBuffer buttonId
  · exact key u.buttonStateBuffer u.funcBttnId
  · exact List.get?_eq_none.2 (by omega)
  · simp [monitorIsButtonPressed]

/-! ## Menu engine (AbstractMenu.h / AbstractMenu.cpp)

Menu state: orientation, numItems_ (uint16_t), selectedItemIdx_ (int16_t,
modelled as an Int with explicit wrapping on every assignment that can
leave the int16_t range), isEntered_, isFuncButtonDown_, allowEntering_.
The ModifyItemValue overloads write only through the external references of
the selected item (a bound flag or value object) and never touch any
AbstractMenu member, so on the menu state they are the identity; item
descriptors are therefore not needed for the selection claims. -/

inductive Orientation
  | leftRightSelectUpDownModify
  | upDownSelectLeftRightModify
deriving DecidableEq, Repr

inductive ArrowButtonType
  | left
  | right
  | up
  | down
deriving DecidableEq, Repr

structure MenuState where
  orientation : Orientation
  numItems : Nat
  selectedItemIdx : Int
  isEntered : Bool
  isFuncButtonDown : Bool
  allowEntering : Bool
deriving DecidableEq, Repr

/-- AbstractMenu.Init: selection 0, browsing, function button not held. -/
def menuInit (orientation : Orientation) (numItems : Nat)
    (allowEntering : Bool) : MenuState :=
  { orientation := orientation, numItems := numItems, selectedItemIdx := 0,
    isEntered := false, isFuncButtonDown := false, allowEntering := allowEntering }

/-- AbstractMenu.SelectItem: no-op beyond numItems_, otherwise stores the
uint16_t index into the int16_t selectedItemIdx_ (wrapped) and leaves
entered mode. -/
def selectItem (m : MenuState) (itemIdx : Nat) : MenuState :=
  if m.numItems ≤ itemIdx then m
  else { m with selectedItemIdx := i16 itemIdx, isEntered := false }

/-- AbstractMenu.OnArrowButton, translated branch for branch; the
ModifyItemValue calls only mutate the externally bound value of the
selected item, so they leave the menu state unchanged. -/
def onArrowButton (m : MenuState) (arrowType : ArrowButtonType)
    (numberOfPresses : Nat) : MenuState :=
  if numberOfPresses < 1 then m
  else
    match m.orientation with
    | Orientation.leftRightSelectUpDownModify =>
      if arrowType = ArrowButtonType.down then m
      else if arrowType = ArrowButtonType.up then m
      else if m.isEntered then m
      else if arrowType = ArrowButtonType.left ∧ m.selectedItemIdx > 0 then
        { m with selectedItemIdx := i16 (m.selectedItemIdx - 1) }
      else if arrowType = ArrowButtonType.right ∧
          m.selectedItemIdx < (m.numItems : Int) - 1 then
        { m with selectedItemIdx := i16 (m.selectedItemIdx + 1) }
      else m
    | Orientation.upDownSelectLeftRightModify =>
      if arrowType = ArrowButtonType.left then m
      else if arrowType = ArrowButtonType.right then m
      else if m.isEntered then m
      else if arrowType = ArrowButtonType.up ∧ m.selectedItemIdx > 0 then
        { m with selectedItemIdx := i16 (m.selectedItemIdx - 1) }
      else if arrowType = ArrowButtonType.down ∧
          m.selectedItemIdx < (m.numItems : Int) - 1 then
        { m with selectedItemIdx := i16 (m.selectedItemIdx + 1) }
      else m

/-- AbstractMenu.OnEncoderTurned with a parent UI attached.  turns is the
int16_t increment count of the event.  With the menu encoder while
browsing: result (an int16_t local) = selectedItemIdx_ + turns, wrapped,
then clamped against 0 and numItems_ (the clamp-to-top assignment
numItems_ - 1 again passes through the int16_t store).  While entered, and
for the value encoder, ModifyItemValue only mutates the externally bound
value, leaving the menu state unchanged. -/
def onEncoderTurned (m : MenuState) (menuEncoderId valueEncoderId encoderId : Nat)
    (turns : Int) (stepsPerRevolution : Nat) : MenuState :=
  if encoderId = menuEncoderId then
    if m.isEntered then m
    else
      let result := i16 (m.selectedItemIdx + turns)
      { m with selectedItemIdx :=
          if result < 0 then 0
          else if result ≥ (m.numItems : Int) then i16 ((m.numItems : Int) - 1)
          else result }
  else m

/-- Claim C7, counterexample: a menu of 10 items with item 5 selected,
browsing.  One menu-encoder event with delta 32767 (a legal int16_t
increment count) must - per the claim - scroll by the delta clamped to
[0, 9], i.e. select item 9.  The source computes selectedItemIdx_ + turns
into an int16_t local, so 5 + 32767 wraps to -32764, is then clamped
against 0, and the selection jumps to item 0 instead. -/
theorem encoderScroll_wraps_int16 :
    (onEncoderTurned (selectItem (menuInit Orientation.upDownSelectLeftRightModify 10 true) 5)
        0 1 0 32767 24).selectedItemIdx = 0 ∧
    ¬((onEncoderTurned (selectItem (menuInit Orientation.upDownSelectLeftRightModify 10 true) 5)
        0 1 0 32767 24).selectedItemIdx = min ((5 : Int) + 32767) 9) := by
  refine ⟨by decide, by decide⟩

/-- Claim C7 as amended: for every menu with 1 ≤ itemCount ≤ 32768 (all
valid indices representable in the int16_t selection field) and the
selection in range, the selection always stays within [0, itemCount-1]
under arrow presses and menu-encoder turns; while browsing, the
selection-axis arrows move it by exactly 1, clamped at the ends with no
wraparound, and the other-axis arrows leave it unchanged; a menu-encoder
turn while browsing sets it to the clamp of the 16-bit wrap of
selection + delta, which coincides with the true clamp of
selection + delta whenever that sum lies within the int16_t range
(the counterexample shows the sum can wrap otherwise). -/
theorem menuSelection_clamped (m : MenuState) (a : ArrowButtonType)
    (n menuId valueId encId : Nat) (turns : Int) (spr : Nat)
    (hN1 : 1 ≤ m.numItems) (hN2 : m.numItems ≤ 32768)
    (hlo : 0 ≤ m.selectedItemIdx)
    (hhi : m.selectedItemIdx ≤ (m.numItems : Int) - 1) :
    (0 ≤ (onArrowButton m a n).selectedItemIdx ∧
      (onArrowButton m a n).selectedItemIdx ≤ (m.numItems : Int) - 1) ∧
    (0 ≤ (onEncoderTurned m menuId valueId encId turns spr).selectedItemIdx ∧
      (onEncoderTurned m menuId valueId encId turns spr).selectedItemIdx
        ≤ (m.numItems : Int) - 1) ∧
    (m.isEntered = false → 1 ≤ n →
      (m.orientation = Orientation.upDownSelectLeftRightModify →
        (onArrowButton m ArrowButtonType.up n).selectedItemIdx
          = max (m.selectedItemIdx - 1) 0 ∧
        (onArrowButton m ArrowButtonType.down n).selectedItemIdx
          = min (m.selectedItemIdx + 1) ((m.numItems : Int) - 1) ∧
        (onArrowButton m ArrowButtonType.left n).selectedItemIdx
          = m.selectedItemIdx ∧
        (onArrowButton m ArrowButtonType.right n).selectedItemIdx
          = m.selectedItemIdx) ∧
      (m.orientation = Orientation.leftRightSelectUpDownModify →
        (onArrowButton m ArrowButtonType.left n).selectedItemIdx
          = max (m.selectedItemIdx - 1) 0 ∧
        (onArrowButton m ArrowButtonType.right n).selectedItemIdx
          = min (m.selectedItemIdx + 1) ((m.numItems : Int) - 1) ∧
        (onArrowButton m ArrowButtonType.up n).selectedItemIdx
          = m.selectedItemIdx ∧
        (onArrowButton m ArrowButtonType.down n).selectedItemIdx
          = m.selectedItemIdx)) ∧
    (m.isEntered = false → encId = menuId →
      -32768 ≤ m.selectedItemIdx + turns → m.selectedItemIdx + turns ≤ 32767 →
      (onEncoderTurned m menuId valueId encId turns spr).selectedItemIdx
        = max 0 (min (m.selectedItemIdx + turns) ((m.numItems : Int) - 1))) := by
  have hni : (1 : Int) ≤ (m.numItems : Int) := by exact_mod_cast hN1
  have hni2 : (m.numItems : Int) ≤ 32768 := by exact_mod_cast hN2
  refine ⟨?_, ?_, ?_, ?_⟩
  · rcases hor : m.orientation <;> rcases a <;>
      simp [onArrowButton, hor, i16] <;>
      first
        | omega
        | (split_ifs <;> (try simp) <;> omega)
  · simp [onEncoderTurned, i16]
    split_ifs <;> (try simp) <;> omega
  · intro hent hn
    have hn1 : ¬ n < 1 := by omega
    constructor <;> intro hor <;>
      refine ⟨?_, ?_, ?_, ?_⟩ <;>
      simp [onArrowButton, hor, hent, hn1, i16] <;>
      first
        | omega
        | (split_ifs <;> (try simp) <;> omega)
  · intro hent henc h1 h2
    simp [onEncoderTurned, henc, hent, i16]
    split_ifs <;> (try simp) <;> omega

/-- Witness for menuSelection_clamped at a concrete input: a 4-item menu
with item 2 selected, up/down selection axis; a down press selects item 3. -/
theorem menuSelection_clamped_witness :
    (onArrowButton (selectItem (menuInit Orientation.upDownSelectLeftRightModify 4 true) 2)
        ArrowButtonType.down 1).selectedItemIdx
      = min ((i16 2) + 1) ((4 : Int) - 1) :=
  ((menuSelection_clamped
      (selectItem (menuInit Orientation.upDownSelectLeftRightModify 4 true) 2)
      ArrowButtonType.down 1 0 1 0 1 24
      (by decide) (by decide) (by decide) (by decide)).2.2.1
    (by decide) (by decide) |>.1 rfl).2.1

end DaisyUi
